import Mathlib

/-!
Verification of the carbon-emission calculator backend (FastAPI + SQLAlchemy).

This file gives a shallow embedding, in Lean 4, of the data model and the
operations of the repository `carbon-em-calc` (files `app/routes.py`,
`app/auth.py`, `app/models.py`, `app/schemas.py`), and proves or refutes the
frozen specification claims about them.

Modelling conventions:
* Python floats are idealised as rationals (`ℚ`); the special values
  produced by `float(str)` are kept in an inductive `PyFloat`
  (`finite q`, `nan`, `inf`, `ninf`), since the bill-upload validation and
  the footprint loop are sensitive to them.  Binary rounding error of IEEE
  arithmetic is not modelled; every counterexample below was chosen away
  from representation boundaries so that it holds for the Python program
  as well.
* Python `int` values are `ℤ`.
* Fallible code returns `Except PyErr _`; an uncaught Python exception is a
  `PyErr` value.
* The SQLAlchemy session is explicit state: a `DBState` record of row
  lists; `db.add` + `db.commit` appends committed rows, rows staged but
  never committed are dropped (the session is closed by `get_db` without a
  commit when an exception escapes the route).
* Datetime columns are opaque integers: no claim depends on them.
-/

deriving instance DecidableEq for Except

/-- Python exception value escaping a route, or an `HTTPException`. -/
inductive PyErr where
  /-- `fastapi.HTTPException(status_code, detail)`. -/
  | http (status : ℕ) (detail : String)
  /-- `AttributeError` on a missing attribute of the given name. -/
  | attributeError (attr : String)
  /-- `ZeroDivisionError` from `/` with a zero denominator. -/
  | zeroDivision
  deriving Repr, DecidableEq

/-- Value of a Python `float`: a finite value (idealised as an exact
rational), or one of the special values `nan`, `inf`, `-inf`. -/
inductive PyFloat where
  | finite (q : ℚ)
  | nan
  | inf
  | ninf
  deriving Repr, DecidableEq

namespace PyFloat

/-- Python `x < 0` on a float (`nan < 0` and `inf < 0` are `False`). -/
def ltZero : PyFloat → Bool
  | .finite q => q < 0
  | .nan => false
  | .inf => false
  | .ninf => true

/-- IEEE addition on `PyFloat` (finite arithmetic idealised as exact). -/
def add : PyFloat → PyFloat → PyFloat
  | .nan, _ => .nan
  | _, .nan => .nan
  | .finite a, .finite b => .finite (a + b)
  | .finite _, .inf => .inf
  | .finite _, .ninf => .ninf
  | .inf, .finite _ => .inf
  | .ninf, .finite _ => .ninf
  | .inf, .inf => .inf
  | .ninf, .ninf => .ninf
  | .inf, .ninf => .nan
  | .ninf, .inf => .nan

/-- IEEE multiplication on `PyFloat` (finite arithmetic idealised as exact). -/
def mul : PyFloat → PyFloat → PyFloat
  | .nan, _ => .nan
  | _, .nan => .nan
  | .finite a, .finite b => .finite (a * b)
  | .finite a, .inf => if a > 0 then .inf else if a < 0 then .ninf else .nan
  | .finite a, .ninf => if a > 0 then .ninf else if a < 0 then .inf else .nan
  | .inf, .finite b => if b > 0 then .inf else if b < 0 then .ninf else .nan
  | .ninf, .finite b => if b > 0 then .ninf else if b < 0 then .inf else .nan
  | .inf, .inf => .inf
  | .ninf, .ninf => .inf
  | .inf, .ninf => .ninf
  | .ninf, .inf => .ninf

end PyFloat

/-- Python `round(x, 3)` on an exact rational, as used by the routes before
returning carbon numbers.  Modelled as rounding `x·1000` to the nearest
integer; faithful to Python at every non-tie value (all values this file
evaluates it at are non-ties). -/
def round3 (q : ℚ) : ℚ := (round (q * 1000) : ℚ) / 1000

/-- Python `round(x, 3)` lifted to `PyFloat` (`nan` and the infinities are
returned unchanged). -/
def pyRound3 : PyFloat → PyFloat
  | .finite q => .finite (round3 q)
  | x => x

/-! ## A model of CPython `float(str)`

`upload_bill` validates `bill_amount` with `float(bill_amount)`, and the
footprint loop re-parses the stored string with `float(bill.bill_amount)`.
The grammar modelled: optional surrounding whitespace, an optional sign,
then either `inf`/`infinity`/`nan` (case-insensitive) or a decimal number
`digits [. digits] [(e|E) [sign] digits]` with at least one mantissa digit.
(PEP 515 underscore separators between digits are not modelled; no claim
evaluates the parser on such strings.) -/

/-- Numeric value of a list of decimal digit characters. -/
def digitsVal (ds : List Char) : ℕ :=
  ds.foldl (fun acc c => acc * 10 + (c.toNat - '0'.toNat)) 0

/-- Syntactic shape of an accepted decimal float literal: integer-part
digits value, fraction digits value and count, exponent.  (Separating the
syntax from its rational value keeps the parse itself computable by
`decide`.) -/
structure DecLit where
  mantInt : ℕ
  mantFrac : ℕ
  fracLen : ℕ
  exp : ℤ
  deriving Repr, DecidableEq

/-- Rational value of a decimal float literal. -/
def DecLit.val (p : DecLit) : ℚ :=
  ((p.mantInt : ℚ) + (p.mantFrac : ℚ) / (10 : ℚ) ^ p.fracLen) * (10 : ℚ) ^ p.exp

/-- Exponent suffix of a float literal: empty, or `e`/`E`, optional sign,
then at least one digit and nothing else. -/
def parseExpSuffix : List Char → Option ℤ
  | [] => some 0
  | c :: rest =>
    if c = 'e' ∨ c = 'E' then
      match rest with
      | '+' :: ds => if ds ≠ [] ∧ ds.all Char.isDigit then some (digitsVal ds) else none
      | '-' :: ds => if ds ≠ [] ∧ ds.all Char.isDigit then some (-(digitsVal ds : ℤ)) else none
      | ds => if ds ≠ [] ∧ ds.all Char.isDigit then some (digitsVal ds) else none
    else none

/-- Unsigned decimal part of a float literal: `digits [. digits] [exp]`,
with at least one digit in the mantissa. -/
def parseDecimal (cs : List Char) : Option DecLit :=
  let ip := cs.takeWhile Char.isDigit
  let r1 := cs.dropWhile Char.isDigit
  match r1 with
  | '.' :: r2 =>
    let fp := r2.takeWhile Char.isDigit
    let r3 := r2.dropWhile Char.isDigit
    if ip = [] ∧ fp = [] then none
    else
      (parseExpSuffix r3).map fun e =>
        { mantInt := digitsVal ip, mantFrac := digitsVal fp, fracLen := fp.length, exp := e }
  | _ =>
    if ip = [] then none
    else (parseExpSuffix r1).map fun e =>
      { mantInt := digitsVal ip, mantFrac := 0, fracLen := 0, exp := e }

/-- Whitespace stripped by `float(str)`. -/
def isPySpace (c : Char) : Bool :=
  c = ' ' ∨ c = '\t' ∨ c = '\n' ∨ c = '\r' ∨ c = '\x0b' ∨ c = '\x0c'

/-- Syntactic class of an accepted `float(str)` argument. -/
inductive FloatTok where
  | num (sgnPos : Bool) (p : DecLit)
  | nan
  | infTok (sgnPos : Bool)
  deriving Repr, DecidableEq

/-- Tokeniser part of CPython `float(str)`: strip whitespace, take an
optional sign, then accept `inf`/`infinity`/`nan` case-insensitively or a
decimal literal. -/
def floatTokOfString (s : String) : Option FloatTok :=
  let cs := ((s.toList.dropWhile isPySpace).reverse.dropWhile isPySpace).reverse
  let sgnPos : Bool := cs.head? ≠ some '-'
  let cs' := match cs with
    | '+' :: r => r
    | '-' :: r => r
    | r => r
  let lower := cs'.map Char.toLower
  if lower = "inf".toList ∨ lower = "infinity".toList then
    some (.infTok sgnPos)
  else if lower = "nan".toList then some .nan
  else
    (parseDecimal cs').map fun p => .num sgnPos p

/-- Float value of an accepted `float(str)` argument (`nan` keeps no
sign). -/
def FloatTok.val : FloatTok → PyFloat
  | .num true p => .finite p.val
  | .num false p => .finite (-p.val)
  | .nan => .nan
  | .infTok true => .inf
  | .infTok false => .ninf

/-- Model of CPython `float(str)`: `some v` when the call returns the float
`v`, `none` when it raises `ValueError`. -/
def pyFloatOfString (s : String) : Option PyFloat :=
  (floatTokOfString s).map FloatTok.val

/-- Python `str.lower()` (`String.toLower` written structurally over the
character list, so that it evaluates in the kernel). -/
def strLower (s : String) : String :=
  ⟨s.data.map Char.toLower⟩

/-! ## Pure carbon-accounting helpers (`app/routes.py`) -/

/-- The `airport_distances` dict of `calculate_flight_carbon`
(`routes.py` lines 744-750), as a key-equality cascade. -/
def airport_distances (k : String × String) : Option ℚ :=
  if k = ("JFK", "LHR") then some 5550
  else if k = ("LHR", "CDG") then some 350
  else if k = ("CDG", "FCO") then some 1110
  else if k = ("FCO", "ATH") then some 1050
  else none

/-- Python `a or b` on optional numbers: the left value survives when it is
truthy (present and nonzero). -/
def pyOrNum (a b : Option ℚ) : Option ℚ :=
  match a with
  | some v => if v ≠ 0 then some v else b
  | none => b

/-- The distance used by `calculate_flight_carbon`: the route table is
consulted in both directions (`get((dep,arr)) or get((arr,dep))`) and a
falsy result (`if not distance`) falls back to 500 km. -/
def lookup_distance (dep arr : String) : ℚ :=
  match pyOrNum (airport_distances (dep, arr)) (airport_distances (arr, dep)) with
  | some d => if d = 0 then 500 else d
  | none => 500

/-- `calculate_flight_carbon(departure, arrival, passengers)`
(`routes.py` lines 736-762): distance × 0.255 × passengers. -/
def calculate_flight_carbon (dep arr : String) (passengers : ℤ) : ℚ :=
  lookup_distance dep arr * (255 / 1000) * passengers

/-- The `transport_factors` dict of `calculate_transport_carbon`
(`routes.py` lines 769-775), with the `.get(_, 0.171)` car default. -/
def transport_factor_of_lower (vt : String) : ℚ :=
  if vt = "bus" then 89 / 1000
  else if vt = "car" then 171 / 1000
  else if vt = "train" then 41 / 1000
  else if vt = "taxi" then 171 / 1000
  else if vt = "metro" then 33 / 1000
  else 171 / 1000

/-- Emission factor looked up by `calculate_transport_carbon` for a raw
vehicle-type string (the code lowercases before the lookup). -/
def transport_factor (vehicle_type : String) : ℚ :=
  transport_factor_of_lower (strLower vehicle_type)

/-- `calculate_transport_carbon(vehicle_type, distance_km, passengers)`
(`routes.py` lines 764-778). -/
def calculate_transport_carbon (vehicle_type : String) (distance_km : ℚ)
    (passengers : ℤ) : ℚ :=
  distance_km * transport_factor vehicle_type * passengers

/-! ## Database rows (`app/models.py`) -/

/-- Row of table `hotels` (`models.py` class `Hotel`). -/
structure Hotel where
  id : ℤ
  name : String
  email : String
  password : String
  created_at : ℤ
  deriving Repr, DecidableEq

/-- Row of table `travel_agents` (`models.py` class `TravelAgent`). -/
structure TravelAgent where
  id : ℤ
  name : String
  email : String
  password : String
  company : Option String
  created_at : ℤ
  deriving Repr, DecidableEq

/-- Row of table `utility_bills` (`models.py` class `UtilityBill`).  Note
that the consumption amount is the *string* column `bill_amount`; the class
declares no `consumption_amount` column. -/
structure UtilityBill where
  id : ℤ
  hotel_id : ℤ
  hotel_name : String
  bill_type : String
  bill_month : ℤ
  bill_year : ℤ
  bill_amount : String
  unit : String
  file_url : String
  uploaded_at : ℤ
  deriving Repr, DecidableEq

/-- Python attribute access `bill.consumption_amount`.  `UtilityBill`
defines no such column or attribute anywhere in the repository, so the
access raises `AttributeError` on every instance. -/
def UtilityBill.consumption_amount (_ : UtilityBill) : Except PyErr ℚ :=
  .error (.attributeError "consumption_amount")

/-- Row of table `trips` (`models.py` class `Trip`). -/
structure Trip where
  id : ℤ
  travel_agent_id : ℤ
  trip_name : String
  trip_description : Option String
  number_of_tourists : ℤ
  start_date : ℤ
  end_date : ℤ
  total_carbon_kg : ℚ
  created_at : ℤ
  deriving Repr, DecidableEq

/-- Row of table `flight_segments` (`models.py` class `FlightSegment`). -/
structure FlightSegment where
  id : ℤ
  trip_id : ℤ
  departure_airport : String
  arrival_airport : String
  transit_airports : Option String
  deriving Repr, DecidableEq

/-- Row of table `local_transports` (`models.py` class `LocalTransport`). -/
structure LocalTransport where
  id : ℤ
  trip_id : ℤ
  vehicle_type : String
  distance_km : ℚ
  deriving Repr, DecidableEq

/-- Row of table `hotel_stays` (`models.py` class `HotelStay`). -/
structure HotelStay where
  id : ℤ
  trip_id : ℤ
  hotel_id : ℤ
  number_of_nights : ℤ
  check_in_date : ℤ
  check_out_date : ℤ
  deriving Repr, DecidableEq

/-- Committed contents of the relational store. -/
structure DBState where
  hotels : List Hotel
  travel_agents : List TravelAgent
  utility_bills : List UtilityBill
  trips : List Trip
  flight_segments : List FlightSegment
  local_transports : List LocalTransport
  hotel_stays : List HotelStay
  deriving Repr, DecidableEq

/-- `db.query(UtilityBill).filter(UtilityBill.hotel_id == hotel_id).all()`. -/
def DBState.billsForHotel (db : DBState) (hotelId : ℤ) : List UtilityBill :=
  db.utility_bills.filter (fun b => b.hotel_id = hotelId)

/-! ## `calculate_hotel_stay_carbon` (`routes.py` lines 780-818) -/

/-- The `emission_factors` dict local to `calculate_hotel_stay_carbon`
(`routes.py` lines 795-800), with the `.get(_, 0.5)` default. -/
def hotel_stay_emission_factor (bt : String) : ℚ :=
  if bt = "electricity" then 708 / 1000
  else if bt = "gas" then 2204 / 1000
  else if bt = "water" then 298 / 1000
  else if bt = "diesel" then 2687 / 1000
  else 1 / 2

/-- The `for bill in hotel_bills` loop of `calculate_hotel_stay_carbon`
(`routes.py` lines 802-811), threading `(total_emissions, total_days)`.
Each iteration first evaluates `bill.consumption_amount`, which raises
`AttributeError` (the column does not exist). -/
def hotelStayLoop : List UtilityBill → ℚ → ℤ → Except PyErr (ℚ × ℤ)
  | [], total_emissions, total_days => .ok (total_emissions, total_days)
  | bill :: rest, total_emissions, total_days =>
    match bill.consumption_amount with
    | .error e => .error e
    | .ok c =>
      if c ≠ 0 ∧ c > 0 then
        let bill_emissions := c * hotel_stay_emission_factor bill.bill_type
        let daily_emissions := bill_emissions / 30
        hotelStayLoop rest (total_emissions + daily_emissions) (total_days + 1)
      else
        hotelStayLoop rest total_emissions total_days

/-- `calculate_hotel_stay_carbon(hotel_id, nights, guests, db)`
(`routes.py` lines 780-818).  `hotel_bills` is passed in already filtered
to the hotel (the function's only use of `db` and `hotel_id` is that
query). -/
def calculate_hotel_stay_carbon (hotel_bills : List UtilityBill)
    (nights guests : ℤ) : Except PyErr ℚ :=
  if hotel_bills.isEmpty then
    .ok (30 * nights * ((guests : ℚ) / 2))
  else
    match hotelStayLoop hotel_bills 0 0 with
    | .error e => .error e
    | .ok (total_emissions, total_days) =>
      if total_days > 0 then
        let average_daily_emissions := total_emissions / total_days
        .ok (average_daily_emissions * nights * ((guests : ℚ) / 2))
      else
        .ok (30 * nights * ((guests : ℚ) / 2))

/-! ## `calculate_carbon_footprint` (`routes.py` lines 330-468) -/

/-- The `emission_factors` dict of the footprint endpoint
(`routes.py` lines 406-409), with the `.get(_, 0)` default. -/
def footprint_emission_factor (bt : String) : ℚ :=
  if bt = "electricity" then 1 / 2
  else if bt = "water" then 1 / 1000
  else 0

/-- The bills summed by the footprint endpoint: the hotel's bills,
filtered by year only when the `year` query parameter is truthy
(`if year:` — `None` and `0` skip the filter). -/
def footprintBills (db : DBState) (hotelId : ℤ) (year : Option ℤ) : List UtilityBill :=
  let own := db.billsForHotel hotelId
  match year with
  | some y => if y ≠ 0 then own.filter (fun b => b.bill_year = y) else own
  | none => own

/-- One iteration of the footprint loop (`routes.py` lines 420-452) as it
affects `total_co2`: re-parse the stored amount (`ValueError` skips the
bill), multiply by the factor for the lowercased type, accumulate. -/
def footprintStep (acc : PyFloat) (bill : UtilityBill) : PyFloat :=
  match pyFloatOfString bill.bill_amount with
  | none => acc
  | some amount =>
    acc.add (amount.mul (.finite (footprint_emission_factor (strLower bill.bill_type))))

/-- The accumulated `total_co2` of the footprint endpoint over a bill
list, starting from `0.0`. -/
def footprintTotal (bills : List UtilityBill) : PyFloat :=
  bills.foldl footprintStep (.finite 0)

/-- The `total_co2_kg` field of the `/bills/carbon-footprint` response
(`routes.py` line 464): the accumulated total rounded to 3 decimals. -/
def footprintReportedTotal (db : DBState) (hotelId : ℤ) (year : Option ℤ) : PyFloat :=
  pyRound3 (footprintTotal (footprintBills db hotelId year))

/-! ## `upload_bill` (`routes.py` lines 52-245) -/

/-- The multipart form fields of `POST /bills/upload`. -/
structure UploadForm where
  bill_type : String
  bill_month : ℤ
  bill_year : ℤ
  bill_amount : String
  unit : String
  file_name : String
  deriving Repr, DecidableEq

/-- Response schema `BillUploadResponse` (`schemas.py`). -/
structure BillUploadResponse where
  id : ℤ
  bill_type : String
  bill_month : ℤ
  bill_year : ℤ
  bill_amount : String
  unit : String
  file_url : String
  message : String
  deriving Repr, DecidableEq

/-- The `valid_units` dict of `upload_bill` (`routes.py` lines 164-167),
with the `.get(_, [])` default. -/
def valid_units (bt : String) : List String :=
  if bt = "electricity" then ["kWh", "kw", "kwh", "kilowatt-hours", "units"]
  else if bt = "water" then ["liters", "litres", "gallons", "cubic meters", "m3", "l", "gal"]
  else []

/-- Next autoincrement id for `utility_bills`. -/
def nextBillId (db : DBState) : ℤ :=
  (db.utility_bills.map (fun b => b.id)).foldl max 0 + 1

/-- `upload_bill` (`routes.py` lines 122-238) after authentication: the
five validation checks in source order (first failure wins), then the S3
upload (modelled as appending the generated object name to `s3`), then the
database insert.  `current_year` is `datetime.now().year`; `timestamp`
stands for `datetime.now().timestamp()` in the object name.  Returns the
new database state, the new S3 bucket contents and the HTTP outcome. -/
def upload_bill (db : DBState) (s3 : List String) (hotelId : ℤ)
    (hotelName : String) (form : UploadForm) (current_year timestamp : ℤ) :
    DBState × List String × Except PyErr BillUploadResponse :=
  if form.bill_type ∉ ["electricity", "water"] then
    (db, s3, .error (.http 400 "Invalid bill type. Must be electricity or water"))
  else if ¬(1 ≤ form.bill_month ∧ form.bill_month ≤ 12) then
    (db, s3, .error (.http 400 "Invalid month. Must be between 1 and 12"))
  else if form.bill_year < 2020 ∨ form.bill_year > current_year + 1 then
    (db, s3, .error (.http 400 ("Invalid year. Must be between 2020 and " ++ toString (current_year + 1))))
  else
    match pyFloatOfString form.bill_amount with
    | none =>
      (db, s3, .error (.http 400 "Bill amount must be a valid number"))
    | some float_amount =>
      if float_amount.ltZero then
        (db, s3, .error (.http 400 "Bill amount must be a positive number"))
      else if strLower form.unit ∉ (valid_units form.bill_type).map strLower then
        (db, s3, .error (.http 400 ("Invalid unit for " ++ form.bill_type)))
      else
        let filename := toString hotelId ++ "_" ++ form.bill_type ++ "_" ++
          toString form.bill_year ++ "_" ++ toString form.bill_month ++ "_" ++
          toString timestamp ++ "_" ++ form.file_name
        let file_url := "https://" ++ "bucket" ++ ".s3.amazonaws.com/" ++ filename
        let bill : UtilityBill :=
          { id := nextBillId db, hotel_id := hotelId, hotel_name := hotelName
            bill_type := form.bill_type, bill_month := form.bill_month
            bill_year := form.bill_year, bill_amount := form.bill_amount
            unit := form.unit, file_url := file_url, uploaded_at := timestamp }
        ({ db with utility_bills := db.utility_bills ++ [bill] }, s3 ++ [filename],
          .ok { id := bill.id, bill_type := bill.bill_type, bill_month := bill.bill_month
                bill_year := bill.bill_year, bill_amount := bill.bill_amount
                unit := bill.unit, file_url := bill.file_url
                message := "Bill uploaded successfully" })

/-! ## Trip creation and reads (`routes.py` lines 477-866) -/

/-- Request schema `FlightSegmentCreate` (`schemas.py`). -/
structure FlightSegmentCreate where
  departure_airport : String
  arrival_airport : String
  transit_airports : Option String
  deriving Repr, DecidableEq

/-- Request schema `LocalTransportCreate` (`schemas.py`). -/
structure LocalTransportCreate where
  vehicle_type : String
  distance_km : ℚ
  deriving Repr, DecidableEq

/-- Request schema `HotelStayCreate` (`schemas.py`). -/
structure HotelStayCreate where
  hotel_id : ℤ
  number_of_nights : ℤ
  check_in_date : ℤ
  check_out_date : ℤ
  deriving Repr, DecidableEq

/-- Request schema `TripCreate` (`schemas.py`).  Pydantic also enforces
`number_of_tourists > 0` (`gt=0`) at the HTTP boundary; the field itself
is any integer here, and theorems note the constraint where relevant. -/
structure TripCreate where
  trip_name : String
  trip_description : Option String
  number_of_tourists : ℤ
  start_date : ℤ
  end_date : ℤ
  flight_segments : List FlightSegmentCreate
  local_transports : List LocalTransportCreate
  hotel_stays : List HotelStayCreate
  deriving Repr, DecidableEq

/-- Response schema `TripCarbonResponse` (`schemas.py`).  The three
`*_details` list fields carry no information any claim depends on and are
omitted. -/
structure TripCarbonResponse where
  trip_id : ℤ
  trip_name : String
  number_of_tourists : ℤ
  total_carbon_kg : ℚ
  carbon_per_tourist_kg : ℚ
  flights_carbon_kg : ℚ
  transport_carbon_kg : ℚ
  hotels_carbon_kg : ℚ
  deriving Repr, DecidableEq

/-- Next autoincrement id for `trips`. -/
def newTripId (db : DBState) : ℤ :=
  (db.trips.map (fun t => t.id)).foldl max 0 + 1

/-- The hotel-stay summation shared by `create_trip` (lines 607-625) and
`calculate_trip_total_carbon` (lines 847-854): for each stay's
`(hotel_id, number_of_nights)`, add `calculate_hotel_stay_carbon` of the
hotel's bills; the first exception aborts the loop. -/
def staysCarbonLoop (db : DBState) (tourists : ℤ) :
    List (ℤ × ℤ) → ℚ → Except PyErr ℚ
  | [], acc => .ok acc
  | (hotelId, nights) :: rest, acc =>
    match calculate_hotel_stay_carbon (db.billsForHotel hotelId) nights tourists with
    | .error e => .error e
    | .ok c => staysCarbonLoop db tourists rest (acc + c)

/-- The trip row inserted and committed by `create_trip`
(`routes.py` lines 536-548). -/
def tripRowOf (db : DBState) (agentId : ℤ) (trip : TripCreate) : Trip :=
  { id := newTripId db, travel_agent_id := agentId, trip_name := trip.trip_name
    trip_description := trip.trip_description
    number_of_tourists := trip.number_of_tourists
    start_date := trip.start_date, end_date := trip.end_date
    total_carbon_kg := 0, created_at := 0 }

/-- `create_trip` (`routes.py` lines 477-657).  The trip row is added and
committed first (lines 546-548); the child rows are only staged while the
per-component carbons are computed, and committed together at line 639.
When a child computation raises (the hotel-stay calculation does whenever
the hotel has bills, see `UtilityBill.consumption_amount`), the exception
escapes the route: the staged child rows are discarded with the session,
but the already committed trip row remains. -/
def create_trip (db : DBState) (agentId : ℤ) (trip : TripCreate) :
    DBState × Except PyErr TripCarbonResponse :=
  let db_trip := tripRowOf db agentId trip
  let db1 := { db with trips := db.trips ++ [db_trip] }
  let flightRows := trip.flight_segments.map fun f =>
    ({ id := 0, trip_id := db_trip.id, departure_airport := f.departure_airport
       arrival_airport := f.arrival_airport
       transit_airports := f.transit_airports } : FlightSegment)
  let total_flights_carbon := (trip.flight_segments.map fun f =>
    calculate_flight_carbon f.departure_airport f.arrival_airport
      trip.number_of_tourists).sum
  let transportRows := trip.local_transports.map fun t =>
    ({ id := 0, trip_id := db_trip.id, vehicle_type := t.vehicle_type
       distance_km := t.distance_km } : LocalTransport)
  let total_transport_carbon := (trip.local_transports.map fun t =>
    calculate_transport_carbon t.vehicle_type t.distance_km
      trip.number_of_tourists).sum
  let stayRows := trip.hotel_stays.map fun s =>
    ({ id := 0, trip_id := db_trip.id, hotel_id := s.hotel_id
       number_of_nights := s.number_of_nights, check_in_date := s.check_in_date
       check_out_date := s.check_out_date } : HotelStay)
  match staysCarbonLoop db1 trip.number_of_tourists
      (trip.hotel_stays.map fun s => (s.hotel_id, s.number_of_nights)) 0 with
  | .error e => (db1, .error e)
  | .ok total_hotels_carbon =>
    let db2 := { db1 with
      flight_segments := db1.flight_segments ++ flightRows
      local_transports := db1.local_transports ++ transportRows
      hotel_stays := db1.hotel_stays ++ stayRows }
    let total_carbon := total_flights_carbon + total_transport_carbon + total_hotels_carbon
    let carbon_per_tourist : ℚ :=
      if trip.number_of_tourists > 0 then total_carbon / trip.number_of_tourists else 0
    (db2, .ok
      { trip_id := db_trip.id, trip_name := db_trip.trip_name
        number_of_tourists := trip.number_of_tourists
        total_carbon_kg := round3 total_carbon
        carbon_per_tourist_kg := round3 carbon_per_tourist
        flights_carbon_kg := round3 total_flights_carbon
        transport_carbon_kg := round3 total_transport_carbon
        hotels_carbon_kg := round3 total_hotels_carbon })

/-- `calculate_trip_total_carbon(trip_id, db)` (`routes.py` lines 820-856). -/
def calculate_trip_total_carbon (tripId : ℤ) (db : DBState) : Except PyErr ℚ :=
  match db.trips.find? (fun t => decide (t.id = tripId)) with
  | none => .ok 0
  | some trip =>
    let flightsSum := ((db.flight_segments.filter fun f => f.trip_id = tripId).map
      fun f => calculate_flight_carbon f.departure_airport f.arrival_airport
        trip.number_of_tourists).sum
    let transportsSum := ((db.local_transports.filter fun t => t.trip_id = tripId).map
      fun t => calculate_transport_carbon t.vehicle_type t.distance_km
        trip.number_of_tourists).sum
    match staysCarbonLoop db trip.number_of_tourists
      ((db.hotel_stays.filter fun s => s.trip_id = tripId).map
        fun s => (s.hotel_id, s.number_of_nights)) 0 with
    | .error e => .error e
    | .ok hotelsSum => .ok (flightsSum + transportsSum + hotelsSum)

/-- The dict returned by `get_trip_carbon_breakdown`
(`routes.py` lines 858-866). -/
structure TripCarbonBreakdown where
  flights_breakdown : List String
  transport_breakdown : List String
  hotels_breakdown : List String
  deriving Repr, DecidableEq

/-- `get_trip_carbon_breakdown(trip_id, db)` (`routes.py` lines 858-866):
the body ignores both arguments and returns three empty lists. -/
def get_trip_carbon_breakdown (_tripId : ℤ) (_db : DBState) : TripCarbonBreakdown :=
  { flights_breakdown := [], transport_breakdown := [], hotels_breakdown := [] }

/-- Response of `GET /trips/TRIPID/carbon` (`routes.py` lines 723-730). -/
structure TripCarbonDetails where
  trip_id : ℤ
  trip_name : String
  number_of_tourists : ℤ
  total_carbon_kg : ℚ
  carbon_per_tourist_kg : ℚ
  flights_breakdown : List String
  transport_breakdown : List String
  hotels_breakdown : List String
  deriving Repr, DecidableEq

/-- `get_trip_carbon_details(trip_id, ...)` (`routes.py` lines 698-730)
after authentication of `current_agent`.  The ownership filter reports a
foreign or absent trip as 404; the per-tourist figure divides by
`trip.number_of_tourists` with **no** zero guard (line 728), so a zero
tourist count raises `ZeroDivisionError`. -/
def get_trip_carbon_details (tripId agentId : ℤ) (db : DBState) :
    Except PyErr TripCarbonDetails :=
  match db.trips.find? (fun t => decide (t.id = tripId ∧ t.travel_agent_id = agentId)) with
  | none => .error (.http 404 "Trip not found")
  | some trip =>
    match calculate_trip_total_carbon tripId db with
    | .error e => .error e
    | .ok total_carbon =>
      let breakdown := get_trip_carbon_breakdown tripId db
      if trip.number_of_tourists = 0 then .error PyErr.zeroDivision
      else
        .ok { trip_id := trip.id, trip_name := trip.trip_name
              number_of_tourists := trip.number_of_tourists
              total_carbon_kg := round3 total_carbon
              carbon_per_tourist_kg := round3 (total_carbon / (trip.number_of_tourists : ℚ))
              flights_breakdown := breakdown.flights_breakdown
              transport_breakdown := breakdown.transport_breakdown
              hotels_breakdown := breakdown.hotels_breakdown }

/-! ## Authentication (`app/auth.py`)

A JWT is modelled by its claim set: both login endpoints sign with the
same shared secret and algorithm, so a token issued by either endpoint
decodes successfully in either verifier (an expired or tampered token is
rejected 401 by the first two lines of both verifiers and is outside the
claim-set model).  `create_access_token` copies the given dict and adds
only `exp`, so the payload of a hotel token has exactly the keys
`hotel_id`, `hotel_name` and the payload of an agent token exactly
`agent_id`, `agent_name`. -/

/-- Decoded claim set of a token accepted by `jwt.decode`.  Each field is
`payload.get(key)`: `none` when the key is absent. -/
structure TokenPayload where
  hotel_id : Option ℤ
  hotel_name : Option String
  agent_id : Option ℤ
  agent_name : Option String
  deriving Repr, DecidableEq

/-- `create_access_token(data={"hotel_id": id, "hotel_name": name})` as
issued by `login` (`auth.py` lines 224-226). -/
def hotelTokenPayload (id : ℤ) (name : String) : TokenPayload :=
  { hotel_id := some id, hotel_name := some name, agent_id := none, agent_name := none }

/-- `create_access_token(data={"agent_id": id, "agent_name": name})` as
issued by `login_travel_agent` (`auth.py` lines 414-416). -/
def agentTokenPayload (id : ℤ) (name : String) : TokenPayload :=
  { hotel_id := none, hotel_name := none, agent_id := some id, agent_name := some name }

/-- `get_current_hotel` (`auth.py` lines 63-113) on a successfully decoded
payload.  `if not hotel_id or not hotel_name` is Python truthiness: a
missing key, a zero id or an empty name all fail the check, and the
`HTTPException(401)` raised inside the `try` matches neither
`jwt.ExpiredSignatureError` nor `jwt.InvalidTokenError`, so it propagates
as a 401 response. -/
def get_current_hotel (payload : TokenPayload) : Except PyErr (ℤ × String) :=
  match payload.hotel_id, payload.hotel_name with
  | some hid, some hname =>
    if hid ≠ 0 ∧ hname ≠ "" then .ok (hid, hname)
    else .error (.http 401 "Invalid token: missing hotel information")
  | _, _ => .error (.http 401 "Invalid token: missing hotel information")

/-- `get_current_travel_agent` (`auth.py` lines 241-299) on a successfully
decoded payload.  When `payload.get("agent_id")` is `None`, or the agent
id is not in the store, the code raises `HTTPException(401)` inside the
`try`; searching the handlers then *evaluates* `jwt.JWTError`
(`auth.py` line 297), an attribute PyJWT does not define (the library in
use: `import jwt` with `jwt.encode`/`jwt.decode`/`jwt.InvalidTokenError`
is PyJWT; `JWTError` belongs to python-jose).  That lookup raises
`AttributeError`, which replaces the 401 and escapes as a server error
(HTTP 500), not a 401. -/
def get_current_travel_agent (payload : TokenPayload) (db : DBState) :
    Except PyErr TravelAgent :=
  match payload.agent_id with
  | none => .error (.attributeError "JWTError")
  | some agentId =>
    match db.travel_agents.find? (fun a => decide (a.id = agentId)) with
    | none => .error (.attributeError "JWTError")
    | some agent => .ok agent

/-- Response of `POST /auth/login` (`auth.py` lines 229-235). -/
structure HotelLoginResponse where
  message : String
  access_token : TokenPayload
  token_type : String
  hotel_id : ℤ
  hotel_name : String
  deriving Repr, DecidableEq

/-- Response of `POST /auth/login-agent` (`auth.py` lines 419-425). -/
structure AgentLoginResponse where
  message : String
  access_token : TokenPayload
  token_type : String
  agent_id : ℤ
  agent_name : String
  deriving Repr, DecidableEq

/-- `login` (`auth.py` lines 172-235).  `verify pw hash` stands for
`bcrypt.verify(pw, hash)` (an external library call, passed as a
parameter).  `if not db_hotel or not bcrypt.verify(...)` collapses an
unknown email and a wrong password into the one
`HTTPException(400, "Invalid email or password")`. -/
def login (verify : String → String → Bool) (db : DBState)
    (email password : String) : Except PyErr HotelLoginResponse :=
  match db.hotels.find? (fun h => decide (h.email = email)) with
  | none => .error (.http 400 "Invalid email or password")
  | some db_hotel =>
    if verify password db_hotel.password then
      .ok { message := "Login successful"
            access_token := hotelTokenPayload db_hotel.id db_hotel.name
            token_type := "bearer", hotel_id := db_hotel.id
            hotel_name := db_hotel.name }
    else .error (.http 400 "Invalid email or password")

/-- `login_travel_agent` (`auth.py` lines 366-425); same shape as `login`
over the `travel_agents` table. -/
def login_travel_agent (verify : String → String → Bool) (db : DBState)
    (email password : String) : Except PyErr AgentLoginResponse :=
  match db.travel_agents.find? (fun a => decide (a.email = email)) with
  | none => .error (.http 400 "Invalid email or password")
  | some db_agent =>
    if verify password db_agent.password then
      .ok { message := "Login successful"
            access_token := agentTokenPayload db_agent.id db_agent.name
            token_type := "bearer", agent_id := db_agent.id
            agent_name := db_agent.name }
    else .error (.http 400 "Invalid email or password")

/-! ## Concrete states used by counterexamples and witnesses -/

/-- An empty relational store. -/
def emptyDB : DBState :=
  { hotels := [], travel_agents := [], utility_bills := [], trips := []
    flight_segments := [], local_transports := [], hotel_stays := [] }

/-- A stored electricity bill of hotel 1. -/
def sampleBill : UtilityBill :=
  { id := 1, hotel_id := 1, hotel_name := "H", bill_type := "electricity"
    bill_month := 1, bill_year := 2024, bill_amount := "100", unit := "kWh"
    file_url := "u", uploaded_at := 0 }

/-- A store whose hotel 1 has one bill on record. -/
def dbWithBill : DBState :=
  { emptyDB with
    hotels := [{ id := 1, name := "H", email := "h@h.com", password := "x", created_at := 0 }]
    utility_bills := [sampleBill] }

/-- A trip-creation request with a single stay at hotel 1. -/
def tripWithStay : TripCreate :=
  { trip_name := "T", trip_description := none, number_of_tourists := 2
    start_date := 0, end_date := 0, flight_segments := [], local_transports := []
    hotel_stays := [{ hotel_id := 1, number_of_nights := 3, check_in_date := 0
                      check_out_date := 0 }] }

/-! ## Claim C1 -/

/-- Claim C1 (refuted by the code, which contradicts its own docstring and
data model): `calculate_hotel_stay_carbon` is claimed total, returning the
average per-bill-implied daily emission when the hotel has at least one
bill.  In fact: with zero bills it returns the 30 kg fallback, but with at
least one bill its loop evaluates `bill.consumption_amount`, a column
`UtilityBill` does not define, and raises `AttributeError` on the first
iteration — it never returns the claimed average. -/
theorem C1_hotel_stay_carbon_attribute_error :
    (∀ nights guests : ℤ,
      calculate_hotel_stay_carbon [] nights guests =
        .ok (30 * (nights : ℚ) * ((guests : ℚ) / 2))) ∧
    (∀ (b : UtilityBill) (bs : List UtilityBill) (nights guests : ℤ),
      calculate_hotel_stay_carbon (b :: bs) nights guests =
        .error (.attributeError "consumption_amount")) :=
  ⟨fun _ _ => rfl, fun _ _ _ _ => rfl⟩

/-! ## Claim C7 -/

/-- Claim C7, numeric example as frozen: the claim asserts
`transport_carbon("bus", 250.5, 15) = 250.5 × 0.089 × 15 = 334.54...`.
The product is in fact `334.4175`, which does not begin with `334.54`:
the claimed value is below every number of that form. -/
theorem C7_counterexample :
    calculate_transport_carbon "bus" (2505 / 10) 15 = 3344175 / 10000 ∧
    ¬ ((33454 / 100 : ℚ) ≤ calculate_transport_carbon "bus" (2505 / 10) 15) := by
  have hs : strLower "bus" = "bus" := by decide
  have h : calculate_transport_carbon "bus" (2505 / 10) 15 = 3344175 / 10000 := by
    simp [calculate_transport_carbon, transport_factor, hs, transport_factor_of_lower]
    norm_num
  exact ⟨h, by rw [h]; norm_num⟩

/-- Claim C7, amended: `transport_carbon(vehicle_type, distance_km,
passengers) = distance_km × factor(vehicle_type) × passengers` with the
factor table bus 0.089, car 0.171, train 0.041, taxi 0.171, metro 0.033
(kg CO2 per passenger-km, looked up on the lowercased type) and the car
factor 0.171 as default for unrecognized types; in particular
`transport_carbon("bus", 250.5, 15) = 250.5 × 0.089 × 15 = 334.4175`
(not `334.54...` as the frozen claim printed). -/
theorem C7_transport_carbon_formula :
    (∀ (vt : String) (d : ℚ) (p : ℤ),
      calculate_transport_carbon vt d p = d * transport_factor vt * p) ∧
    transport_factor "bus" = 89 / 1000 ∧
    transport_factor "car" = 171 / 1000 ∧
    transport_factor "train" = 41 / 1000 ∧
    transport_factor "taxi" = 171 / 1000 ∧
    transport_factor "metro" = 33 / 1000 ∧
    (∀ vt : String,
      strLower vt ∉ (["bus", "car", "train", "taxi", "metro"] : List String) →
      transport_factor vt = 171 / 1000) ∧
    calculate_transport_carbon "bus" (2505 / 10) 15 = 3344175 / 10000 := by
  refine ⟨fun _ _ _ => rfl, ?_, ?_, ?_, ?_, ?_, ?_, ?_⟩
  · simp [transport_factor, transport_factor_of_lower, show strLower "bus" = "bus" by decide]
  · simp [transport_factor, transport_factor_of_lower, show strLower "car" = "car" by decide]
  · simp [transport_factor, transport_factor_of_lower, show strLower "train" = "train" by decide]
  · simp [transport_factor, transport_factor_of_lower, show strLower "taxi" = "taxi" by decide]
  · simp [transport_factor, transport_factor_of_lower, show strLower "metro" = "metro" by decide]
  · intro vt h
    simp only [List.mem_cons, List.mem_singleton, not_or] at h
    obtain ⟨h1, h2, h3, h4, h5, -⟩ := h
    simp [transport_factor, transport_factor_of_lower, h1, h2, h3, h4, h5]
  · have hs : strLower "bus" = "bus" := by decide
    simp [calculate_transport_carbon, transport_factor, hs, transport_factor_of_lower]
    norm_num

/-- Witness for C7: the amended theorem applied at the unrecognized type
`"boat"` (hypothesis discharged by computation) and at the bus example. -/
theorem C7_transport_carbon_formula_witness :
    transport_factor "boat" = 171 / 1000 ∧
    calculate_transport_carbon "bus" (2505 / 10) 15 = 3344175 / 10000 :=
  ⟨C7_transport_carbon_formula.2.2.2.2.2.2.1 "boat" (by decide),
   C7_transport_carbon_formula.2.2.2.2.2.2.2⟩

/-! ## Claim C8 -/

/-- The route table contains no pair in both directions, so a hit in one
direction forces a miss in the other. -/
theorem airport_distances_asymm (A B : String) (v : ℚ)
    (h : airport_distances (A, B) = some v) : airport_distances (B, A) = none := by
  unfold airport_distances at h
  split_ifs at h with h1 h2 h3 h4
  · rw [Prod.mk.injEq] at h1
    obtain ⟨rfl, rfl⟩ := h1
    decide
  · rw [Prod.mk.injEq] at h2
    obtain ⟨rfl, rfl⟩ := h2
    decide
  · rw [Prod.mk.injEq] at h3
    obtain ⟨rfl, rfl⟩ := h3
    decide
  · rw [Prod.mk.injEq] at h4
    obtain ⟨rfl, rfl⟩ := h4
    decide

/-- The distance lookup of `calculate_flight_carbon` is symmetric: both
directions consult the same two table entries, at most one of which can
hit, and the falsy fallback is the same 500 km on both sides. -/
theorem lookup_distance_symm (A B : String) :
    lookup_distance A B = lookup_distance B A := by
  unfold lookup_distance
  rcases h1 : airport_distances (A, B) with _ | v1
  · rcases h2 : airport_distances (B, A) with _ | v2
    · rfl
    · by_cases hv : v2 = 0
      · subst hv
        simp [pyOrNum]
      · simp [pyOrNum, hv]
  · rcases h2 : airport_distances (B, A) with _ | v2
    · by_cases hv : v1 = 0
      · subst hv
        simp [pyOrNum]
      · simp [pyOrNum, hv]
    · exact absurd (airport_distances_asymm A B v1 h1) (by rw [h2]; simp)

/-- Claim C8 (confirmed): `flight_carbon` is direction-symmetric for every
pair of airport codes and every passenger count, because the fixed route
table is checked in both directions and unknown pairs share the 500 km
default. -/
theorem C8_flight_carbon_symmetric (A B : String) (p : ℤ) :
    calculate_flight_carbon A B p = calculate_flight_carbon B A p := by
  unfold calculate_flight_carbon
  rw [lookup_distance_symm]

/-! ## Claim C10 -/

/-- Claim C10 (the cross-rejection is real but the code is buggy on one
side): a hotel-login token (claims `hotel_id`, `hotel_name`) is never
accepted by the travel-agent verifier, and an agent-login token (claims
`agent_id`, `agent_name`) is never accepted by the hotel verifier, because
each verifier requires its own claim field names.  The hotel verifier
rejects the agent token with the 401 `HTTPException`; the travel-agent
verifier raises its 401 too, but while searching the handlers the
nonexistent attribute `jwt.JWTError` is evaluated and the rejection
escapes as `AttributeError` (HTTP 500), not 401. -/
theorem C10_cross_kind_tokens_rejected :
    (∀ (id : ℤ) (name : String),
      get_current_hotel (agentTokenPayload id name) =
        .error (.http 401 "Invalid token: missing hotel information")) ∧
    (∀ (id : ℤ) (name : String) (db : DBState),
      get_current_travel_agent (hotelTokenPayload id name) db =
        .error (.attributeError "JWTError")) ∧
    (∀ (id : ℤ) (name : String) (db : DBState) (a : TravelAgent),
      get_current_travel_agent (hotelTokenPayload id name) db ≠ .ok a) ∧
    (∀ (id : ℤ) (name : String) (h : ℤ × String),
      get_current_hotel (agentTokenPayload id name) ≠ .ok h) := by
  refine ⟨fun _ _ => rfl, fun _ _ _ => rfl, ?_, ?_⟩
  · intro id name db a h
    exact Except.noConfusion h
  · intro id name h hcontra
    exact Except.noConfusion hcontra

/-! ## Claim C4 -/

/-- Claim C4, as frozen: bad credentials are claimed to fail with HTTP 401.
Both login endpoints in fact raise `HTTPException(400, ...)`: here a login
against an empty store returns status 400, which is not 401.  (The message
is the single generic one, as the claim also says.) -/
theorem C4_counterexample :
    login (fun _ _ => true) emptyDB "nobody@example.com" "pw" =
      .error (.http 400 "Invalid email or password") ∧ (400 : ℕ) ≠ 401 :=
  ⟨rfl, by decide⟩

/-- Claim C4, amended: for every login attempt with bad credentials
(unknown email, or a known email whose password fails `bcrypt.verify`),
both the hotel and the travel-agent login fail with HTTP status **400**
(not 401) and the single generic detail `"Invalid email or password"`,
identical in all bad-credential cases of both identity kinds, so the
response does not distinguish a wrong password from an unknown email. -/
theorem C4_bad_credentials_generic_400 :
    (∀ (verify : String → String → Bool) (db : DBState) (email password : String),
      ((db.hotels.find? fun h => decide (h.email = email)) = none ∨
        (∃ h, (db.hotels.find? fun h2 => decide (h2.email = email)) = some h ∧
          verify password h.password = false)) →
      login verify db email password = .error (.http 400 "Invalid email or password")) ∧
    (∀ (verify : String → String → Bool) (db : DBState) (email password : String),
      ((db.travel_agents.find? fun a => decide (a.email = email)) = none ∨
        (∃ a, (db.travel_agents.find? fun a2 => decide (a2.email = email)) = some a ∧
          verify password a.password = false)) →
      login_travel_agent verify db email password =
        .error (.http 400 "Invalid email or password")) := by
  constructor
  · intro verify db email password h
    rcases h with h | ⟨hrow, hfind, hv⟩
    · simp [login, h]
    · simp [login, hfind, hv]
  · intro verify db email password h
    rcases h with h | ⟨hrow, hfind, hv⟩
    · simp [login_travel_agent, h]
    · simp [login_travel_agent, hfind, hv]

/-- A registered hotel row used by the C4 witness. -/
def hotelRow : Hotel :=
  { id := 1, name := "H", email := "h@x.com", password := "hash", created_at := 0 }

/-- A store with one registered hotel. -/
def dbOneHotel : DBState := { emptyDB with hotels := [hotelRow] }

/-- Witness for C4: the amended theorem applied to a wrong-password
attempt against a store that does contain the email. -/
theorem C4_bad_credentials_generic_400_witness :
    login (fun _ _ => false) dbOneHotel "h@x.com" "wrong" =
      .error (.http 400 "Invalid email or password") :=
  C4_bad_credentials_generic_400.1 (fun _ _ => false) dbOneHotel "h@x.com" "wrong"
    (Or.inr ⟨hotelRow, by decide, rfl⟩)

/-! ## Claim C9 -/

/-- Claim C9 (confirmed): `get_trip_carbon_breakdown` ignores its
arguments and returns three empty lists, so every successful per-trip
carbon detail read reports empty `flights_breakdown`,
`transport_breakdown` and `hotels_breakdown` alongside its totals. -/
theorem C9_breakdowns_always_empty :
    (∀ (tripId : ℤ) (db : DBState),
      get_trip_carbon_breakdown tripId db =
        { flights_breakdown := [], transport_breakdown := [], hotels_breakdown := [] }) ∧
    (∀ (tripId agentId : ℤ) (db : DBState) (r : TripCarbonDetails),
      get_trip_carbon_details tripId agentId db = .ok r →
      r.flights_breakdown = [] ∧ r.transport_breakdown = [] ∧ r.hotels_breakdown = []) := by
  refine ⟨fun _ _ => rfl, fun tripId agentId db r h => ?_⟩
  unfold get_trip_carbon_details at h
  split at h
  · exact Except.noConfusion h
  · split at h
    · exact Except.noConfusion h
    · split at h
      · exact Except.noConfusion h
      · obtain rfl := Except.ok.inj h
        exact ⟨rfl, rfl, rfl⟩

/-- A trip of agent 1 with two tourists and no components. -/
def dbOneTrip : DBState :=
  { emptyDB with
    trips := [{ id := 1, travel_agent_id := 1, trip_name := "T", trip_description := none
                number_of_tourists := 2, start_date := 0, end_date := 0
                total_carbon_kg := 0, created_at := 0 }] }

/-- Witness for C9: a concrete successful detail read, with the theorem
applied to it. -/
theorem C9_breakdowns_always_empty_witness :
    ∃ r, get_trip_carbon_details 1 1 dbOneTrip = .ok r ∧
      r.flights_breakdown = [] ∧ r.transport_breakdown = [] ∧ r.hotels_breakdown = [] :=
  ⟨_, rfl, C9_breakdowns_always_empty.2 1 1 dbOneTrip _ rfl⟩

/-! ## Claim C2 -/

/-- A persisted trip row with `number_of_tourists = 0` (the API's pydantic
schema forbids creating one, but the `trips` table itself does not). -/
def dbZeroTrip : DBState :=
  { emptyDB with
    trips := [{ id := 1, travel_agent_id := 1, trip_name := "T", trip_description := none
                number_of_tourists := 0, start_date := 0, end_date := 0
                total_carbon_kg := 0, created_at := 0 }] }

/-- Claim C2, as frozen, is false for the per-trip carbon detail read: it
claims `tourist_count = 0` yields 0 and never an error for every operation
that reports per-tourist carbon, but `GET /trips/1/carbon` on a trip row
with zero tourists divides without a guard and raises
`ZeroDivisionError`. -/
theorem C2_counterexample :
    get_trip_carbon_details 1 1 dbZeroTrip = .error PyErr.zeroDivision := by
  decide

/-- Claim C2, amended: the reported `carbon_per_tourist_kg` equals
`round3(total / tourist_count)` wherever a response is produced — at trip
creation the division is guarded, a zero tourist count yielding 0; the
per-trip detail read reports `round3(total / tourist_count)` on every
success, but its division is unguarded, so a trip row with
`tourist_count = 0` makes it raise `ZeroDivisionError` instead of
reporting 0. -/
theorem C2_per_tourist_rounded_ratio :
    (∀ (db : DBState) (agentId : ℤ) (trip : TripCreate) (st : DBState)
        (r : TripCarbonResponse),
      create_trip db agentId trip = (st, .ok r) →
      ∃ T, r.total_carbon_kg = round3 T ∧
        r.carbon_per_tourist_kg =
          round3 (if trip.number_of_tourists > 0
            then T / (trip.number_of_tourists : ℚ) else 0)) ∧
    (∀ (tripId agentId : ℤ) (db : DBState) (r : TripCarbonDetails),
      get_trip_carbon_details tripId agentId db = .ok r →
      r.number_of_tourists ≠ 0 ∧
      ∃ T, r.total_carbon_kg = round3 T ∧
        r.carbon_per_tourist_kg = round3 (T / (r.number_of_tourists : ℚ))) ∧
    (∀ (tripId agentId : ℤ) (db : DBState) (trip : Trip) (T : ℚ),
      db.trips.find? (fun t => decide (t.id = tripId ∧ t.travel_agent_id = agentId)) =
        some trip →
      trip.number_of_tourists = 0 →
      calculate_trip_total_carbon tripId db = .ok T →
      get_trip_carbon_details tripId agentId db = .error PyErr.zeroDivision) := by
  refine ⟨?_, ?_, ?_⟩
  · intro db agentId trip st r h
    simp only [create_trip] at h
    split at h
    · rw [Prod.mk.injEq] at h
      exact Except.noConfusion h.2
    · rw [Prod.mk.injEq] at h
      obtain ⟨-, h2⟩ := h
      obtain rfl := Except.ok.inj h2
      exact ⟨_, rfl, rfl⟩
  · intro tripId agentId db r h
    unfold get_trip_carbon_details at h
    split at h
    · exact Except.noConfusion h
    · split at h
      · exact Except.noConfusion h
      · split at h
        · exact Except.noConfusion h
        · obtain rfl := Except.ok.inj h
          exact ⟨by assumption, _, rfl, rfl⟩
  · intro tripId agentId db trip T hfind hz htot
    simp only [get_trip_carbon_details]
    rw [hfind]
    simp [htot, hz]

/-- Witness for C2: the amended theorem applied to a concrete successful
detail read of a two-tourist trip. -/
theorem C2_per_tourist_rounded_ratio_witness :
    ∃ r, get_trip_carbon_details 1 1 dbOneTrip = .ok r ∧
      r.number_of_tourists ≠ 0 ∧
      ∃ T, r.total_carbon_kg = round3 T ∧
        r.carbon_per_tourist_kg = round3 (T / (r.number_of_tourists : ℚ)) :=
  ⟨_, rfl, C2_per_tourist_rounded_ratio.2.1 1 1 dbOneTrip _ rfl⟩

/-! ## Claim C3 -/

/-- Claim C3, as frozen, is false: `create_trip` commits the trip row
before processing any child.  Here a concrete creation whose only hotel
stay fails (the stay's hotel has a bill on record, so the hotel-stay
carbon calculation raises) still leaves the trip row persisted: the
operation errors, yet the final store contains the new trip. -/
theorem C3_counterexample :
    (create_trip dbWithBill 1 tripWithStay).2 =
      .error (.attributeError "consumption_amount") ∧
    dbWithBill.trips = [] ∧
    (create_trip dbWithBill 1 tripWithStay).1.trips =
      [tripRowOf dbWithBill 1 tripWithStay] := by
  refine ⟨by decide, rfl, by decide⟩

/-- Claim C3, amended: `create_trip` is not atomic.  The trip row is
committed before the children are processed, so whenever processing a
child fails the error propagates with the staged child rows discarded but
the trip row already persisted: the final store is exactly the original
one plus the new trip row. -/
theorem C3_trip_persists_when_child_fails
    (db : DBState) (agentId : ℤ) (trip : TripCreate) (st : DBState) (e : PyErr)
    (h : create_trip db agentId trip = (st, .error e)) :
    st.trips = db.trips ++ [tripRowOf db agentId trip] ∧
    st.flight_segments = db.flight_segments ∧
    st.local_transports = db.local_transports ∧
    st.hotel_stays = db.hotel_stays := by
  simp only [create_trip] at h
  split at h
  · rw [Prod.mk.injEq] at h
    obtain ⟨rfl, -⟩ := h
    exact ⟨rfl, rfl, rfl, rfl⟩
  · rw [Prod.mk.injEq] at h
    exact Except.noConfusion h.2

/-- Witness for C3: the amended theorem applied to the concrete failing
creation. -/
theorem C3_trip_persists_when_child_fails_witness :
    ∃ st, create_trip dbWithBill 1 tripWithStay =
        (st, .error (.attributeError "consumption_amount")) ∧
      st.trips = dbWithBill.trips ++ [tripRowOf dbWithBill 1 tripWithStay] ∧
      st.flight_segments = dbWithBill.flight_segments ∧
      st.local_transports = dbWithBill.local_transports ∧
      st.hotel_stays = dbWithBill.hotel_stays := by
  refine ⟨(create_trip dbWithBill 1 tripWithStay).1, ?_, ?_⟩
  · have h2 : (create_trip dbWithBill 1 tripWithStay).2 =
      .error (.attributeError "consumption_amount") := by decide
    rw [← h2]
  · exact C3_trip_persists_when_child_fails dbWithBill 1 tripWithStay _ _
      (by
        have h2 : (create_trip dbWithBill 1 tripWithStay).2 =
          .error (.attributeError "consumption_amount") := by decide
        rw [← h2])

/-! ## Claim C5 -/

/-- The claimed invariant on stored amounts: the string parses to a
non-negative real number. -/
def parsesToNonnegReal (s : String) : Prop :=
  ∃ q : ℚ, 0 ≤ q ∧ pyFloatOfString s = some (.finite q)

/-- An upload form whose amount string is `"nan"`. -/
def nanForm : UploadForm :=
  { bill_type := "electricity", bill_month := 1, bill_year := 2024
    bill_amount := "nan", unit := "kWh", file_name := "b.pdf" }

/-- Claim C5, as frozen, is false in its amount clause: `float("nan")`
succeeds and `nan < 0` is `False`, so an upload whose amount string is
`"nan"` passes validation and is stored — yet its stored amount parses to
`nan`, which is not a non-negative real (it is not `finite q` for any
`q`). -/
theorem C5_counterexample :
    (upload_bill emptyDB [] 1 "H" nanForm 2025 0).2.2.isOk = true ∧
    (∃ b, (upload_bill emptyDB [] 1 "H" nanForm 2025 0).1.utility_bills = [b] ∧
      b.bill_amount = "nan" ∧ pyFloatOfString b.bill_amount = some PyFloat.nan) ∧
    ¬ parsesToNonnegReal "nan" := by
  refine ⟨by decide, ⟨_, rfl, by decide, by decide⟩, ?_⟩
  rintro ⟨q, -, h⟩
  rw [show pyFloatOfString "nan" = some PyFloat.nan from by decide] at h
  exact PyFloat.noConfusion (Option.some.inj h)

/-- Claim C5, amended: `upload_bill` validates in the fixed order
bill_type, month, year, amount, unit, the first failing check determining
the reported 400 error; any failing check rejects the request with the
store and the S3 bucket unchanged (so before any file upload or database
write); and every stored bill has an amount string accepted by `float`
whose value does not compare below zero (`nan` and `inf` pass, so
"non-negative real" weakens to "not less than zero") and a unit that is a
case-insensitive member of the allowed list for its bill type. -/
theorem C5_upload_validation_order_and_invariant :
    ∀ (db : DBState) (s3 : List String) (hid : ℤ) (hname : String)
      (form : UploadForm) (cy ts : ℤ),
    (form.bill_type ∉ (["electricity", "water"] : List String) →
      upload_bill db s3 hid hname form cy ts =
        (db, s3, .error (.http 400 "Invalid bill type. Must be electricity or water"))) ∧
    (form.bill_type ∈ (["electricity", "water"] : List String) →
      ¬(1 ≤ form.bill_month ∧ form.bill_month ≤ 12) →
      upload_bill db s3 hid hname form cy ts =
        (db, s3, .error (.http 400 "Invalid month. Must be between 1 and 12"))) ∧
    (form.bill_type ∈ (["electricity", "water"] : List String) →
      (1 ≤ form.bill_month ∧ form.bill_month ≤ 12) →
      (form.bill_year < 2020 ∨ form.bill_year > cy + 1) →
      upload_bill db s3 hid hname form cy ts =
        (db, s3, .error (.http 400
          ("Invalid year. Must be between 2020 and " ++ toString (cy + 1))))) ∧
    (form.bill_type ∈ (["electricity", "water"] : List String) →
      (1 ≤ form.bill_month ∧ form.bill_month ≤ 12) →
      ¬(form.bill_year < 2020 ∨ form.bill_year > cy + 1) →
      pyFloatOfString form.bill_amount = none →
      upload_bill db s3 hid hname form cy ts =
        (db, s3, .error (.http 400 "Bill amount must be a valid number"))) ∧
    (∀ v, form.bill_type ∈ (["electricity", "water"] : List String) →
      (1 ≤ form.bill_month ∧ form.bill_month ≤ 12) →
      ¬(form.bill_year < 2020 ∨ form.bill_year > cy + 1) →
      pyFloatOfString form.bill_amount = some v →
      v.ltZero = true →
      upload_bill db s3 hid hname form cy ts =
        (db, s3, .error (.http 400 "Bill amount must be a positive number"))) ∧
    (∀ v, form.bill_type ∈ (["electricity", "water"] : List String) →
      (1 ≤ form.bill_month ∧ form.bill_month ≤ 12) →
      ¬(form.bill_year < 2020 ∨ form.bill_year > cy + 1) →
      pyFloatOfString form.bill_amount = some v →
      v.ltZero = false →
      strLower form.unit ∉ (valid_units form.bill_type).map strLower →
      upload_bill db s3 hid hname form cy ts =
        (db, s3, .error (.http 400 ("Invalid unit for " ++ form.bill_type)))) ∧
    (∀ db2 s32 e, upload_bill db s3 hid hname form cy ts = (db2, s32, .error e) →
      db2 = db ∧ s32 = s3) ∧
    (∀ db2 s32 r, upload_bill db s3 hid hname form cy ts = (db2, s32, .ok r) →
      (∃ v, pyFloatOfString form.bill_amount = some v ∧ v.ltZero = false) ∧
      strLower form.unit ∈ (valid_units form.bill_type).map strLower ∧
      form.bill_type ∈ (["electricity", "water"] : List String) ∧
      (1 ≤ form.bill_month ∧ form.bill_month ≤ 12) ∧
      (2020 ≤ form.bill_year ∧ form.bill_year ≤ cy + 1) ∧
      ∃ b, db2.utility_bills = db.utility_bills ++ [b] ∧
        b.bill_amount = form.bill_amount ∧ b.unit = form.unit ∧
        b.bill_type = form.bill_type) := by
  intro db s3 hid hname form cy ts
  refine ⟨?_, ?_, ?_, ?_, ?_, ?_, ?_, ?_⟩
  · intro h1
    simp [upload_bill, h1]
  · intro h1 h2
    simp [upload_bill, h1, h2]
  · intro h1 h2 h3
    simp [upload_bill, h1, h2, h3]
  · intro h1 h2 h3 hp
    simp [upload_bill, h1, h2, h3, hp]
  · intro v h1 h2 h3 hp hlt
    simp [upload_bill, h1, h2, h3, hp, hlt]
  · intro v h1 h2 h3 hp hlt hu
    simp [upload_bill, h1, h2, h3, hp, hlt, hu]
  · intro db2 s32 e h
    unfold upload_bill at h
    split at h
    · simp only [Prod.mk.injEq] at h
      exact ⟨h.1.symm, h.2.1.symm⟩
    · split at h
      · simp only [Prod.mk.injEq] at h
        exact ⟨h.1.symm, h.2.1.symm⟩
      · split at h
        · simp only [Prod.mk.injEq] at h
          exact ⟨h.1.symm, h.2.1.symm⟩
        · split at h
          · simp only [Prod.mk.injEq] at h
            exact ⟨h.1.symm, h.2.1.symm⟩
          · split at h
            · simp only [Prod.mk.injEq] at h
              exact ⟨h.1.symm, h.2.1.symm⟩
            · split at h
              · simp only [Prod.mk.injEq] at h
                exact ⟨h.1.symm, h.2.1.symm⟩
              · simp only [Prod.mk.injEq] at h
                exact absurd h.2.2 (by simp)
  · intro db2 s32 r h
    unfold upload_bill at h
    split at h
    · simp at h
    · split at h
      · simp at h
      · split at h
        · simp at h
        · split at h
          · simp at h
          · split at h
            · simp at h
            · split at h
              · simp at h
              · rename_i hbt hmon hyear hopt v hparse hneg hunit
                simp only [Prod.mk.injEq] at h
                obtain ⟨hdb, hs3, -⟩ := h
                refine ⟨⟨v, hparse, by simpa using hneg⟩, not_not.mp hunit, not_not.mp hbt,
                  not_not.mp hmon, ?_, ?_⟩
                · rw [not_or] at hyear
                  exact ⟨le_of_not_lt hyear.1, le_of_not_lt hyear.2⟩
                · exact ⟨_, by rw [← hdb], rfl, rfl, rfl⟩

/-- Witness for C5: the amended theorem applied to a concrete upload with
an unsupported bill type, rejected with the bill-type error and no state
change. -/
theorem C5_upload_validation_witness :
    upload_bill emptyDB [] 1 "H"
      { bill_type := "gas", bill_month := 1, bill_year := 2024
        bill_amount := "10", unit := "kWh", file_name := "f" } 2025 0 =
      (emptyDB, [], .error (.http 400 "Invalid bill type. Must be electricity or water")) :=
  (C5_upload_validation_order_and_invariant emptyDB [] 1 "H"
    { bill_type := "gas", bill_month := 1, bill_year := 2024
      bill_amount := "10", unit := "kWh", file_name := "f" } 2025 0).1 (by decide)

/-! ## Claim C6 -/

/-- Pointwise relation between a stored bill and its amount-doubled
version: same hotel, type and year, and the amount strings parse to
finite values `q` and `2·q`. -/
def DoubledBill (b b2 : UtilityBill) : Prop :=
  b2.hotel_id = b.hotel_id ∧ b2.bill_type = b.bill_type ∧
  b2.bill_year = b.bill_year ∧
  ∃ q, pyFloatOfString b.bill_amount = some (.finite q) ∧
    pyFloatOfString b2.bill_amount = some (.finite (2 * q))

/-- The exact (unrounded) value of the footprint accumulator over a list
of bills whose amounts all parse to finite values. -/
def finiteFootprintSum (bills : List UtilityBill) : ℚ :=
  (bills.map fun b =>
    (match pyFloatOfString b.bill_amount with
     | some (.finite q) => q
     | _ => 0) * footprint_emission_factor (strLower b.bill_type)).sum

/-- On all-finite bills the footprint loop stays finite and computes the
exact sum. -/
theorem footprintTotal_finite (bills : List UtilityBill)
    (h : ∀ b ∈ bills, ∃ q, pyFloatOfString b.bill_amount = some (.finite q)) :
    ∀ a : ℚ, List.foldl footprintStep (.finite a) bills =
      .finite (a + finiteFootprintSum bills) := by
  induction bills with
  | nil =>
    intro a
    simp [finiteFootprintSum]
  | cons b bs ih =>
    intro a
    obtain ⟨q, hq⟩ := h b (List.mem_cons_self b bs)
    have hrest := fun x hx => h x (List.mem_cons_of_mem b hx)
    simp only [List.foldl_cons]
    rw [show footprintStep (.finite a) b =
      .finite (a + q * footprint_emission_factor (strLower b.bill_type)) from by
        simp [footprintStep, hq, PyFloat.add, PyFloat.mul]]
    rw [ih hrest]
    simp only [finiteFootprintSum, List.map_cons, List.sum_cons, hq]
    congr 1
    ring

/-- `DoubledBill`-related lists relate pointwise after any filter that
respects the relation. -/
theorem forall₂_doubled_filter (p : UtilityBill → Bool)
    (hp : ∀ a b, DoubledBill a b → p b = p a) :
    ∀ {l l2 : List UtilityBill}, List.Forall₂ DoubledBill l l2 →
      List.Forall₂ DoubledBill (l.filter p) (l2.filter p) := by
  intro l l2 h
  induction h with
  | nil => simp
  | @cons a b l l2 hab h ih =>
    rw [List.filter_cons, List.filter_cons, hp a b hab]
    by_cases hpa : p a
    · simp only [hpa, if_true]
      exact List.Forall₂.cons hab ih
    · simp only [hpa, if_false]
      exact ih

/-- Left components of `DoubledBill`-related lists all parse finite. -/
theorem doubled_finite_left :
    ∀ {l l2 : List UtilityBill}, List.Forall₂ DoubledBill l l2 →
      ∀ b ∈ l, ∃ q, pyFloatOfString b.bill_amount = some (.finite q) := by
  intro l l2 h
  induction h with
  | nil => intro b hb; exact absurd hb (List.not_mem_nil b)
  | @cons a b l l2 hab h ih =>
    intro x hx
    rcases List.mem_cons.mp hx with rfl | hx
    · exact ⟨hab.2.2.2.choose, hab.2.2.2.choose_spec.1⟩
    · exact ih x hx

/-- Right components of `DoubledBill`-related lists all parse finite. -/
theorem doubled_finite_right :
    ∀ {l l2 : List UtilityBill}, List.Forall₂ DoubledBill l l2 →
      ∀ b ∈ l2, ∃ q, pyFloatOfString b.bill_amount = some (.finite q) := by
  intro l l2 h
  induction h with
  | nil => intro b hb; exact absurd hb (List.not_mem_nil b)
  | @cons a b l l2 hab h ih =>
    intro x hx
    rcases List.mem_cons.mp hx with rfl | hx
    · exact ⟨2 * hab.2.2.2.choose, hab.2.2.2.choose_spec.2⟩
    · exact ih x hx

/-- Doubling every amount doubles the exact footprint sum. -/
theorem doubled_finiteFootprintSum :
    ∀ {l l2 : List UtilityBill}, List.Forall₂ DoubledBill l l2 →
      finiteFootprintSum l2 = 2 * finiteFootprintSum l := by
  intro l l2 h
  induction h with
  | nil => simp [finiteFootprintSum]
  | @cons a b l l2 hab h ih =>
    obtain ⟨hhid, hty, hyr, q, hqa, hqb⟩ := hab
    simp only [finiteFootprintSum, List.map_cons, List.sum_cons] at ih ⊢
    rw [hqa, hqb, hty, ih]
    ring

/-- Claim C6, amended: the *unrounded* footprint total is linear.  For a
fixed hotel and a fixed optional year filter, replacing every stored bill
by one with the same hotel, type and year whose amount parses to twice the
original finite value doubles the accumulated `total_co2` exactly.  (The
response field `total_co2_kg` is this total rounded to 3 decimals, and the
rounding breaks exact doubling — see the counterexample.) -/
theorem C6_footprint_unrounded_linear
    (db db2 : DBState) (hid : ℤ) (year : Option ℤ)
    (h : List.Forall₂ DoubledBill db.utility_bills db2.utility_bills) :
    footprintTotal (footprintBills db2 hid year) =
      (PyFloat.finite 2).mul (footprintTotal (footprintBills db hid year)) := by
  have hfil : List.Forall₂ DoubledBill (footprintBills db hid year)
      (footprintBills db2 hid year) := by
    unfold footprintBills DBState.billsForHotel
    have h1 := forall₂_doubled_filter (fun b => decide (b.hotel_id = hid))
      (fun a b hab => by simp [hab.1]) h
    rcases year with _ | y
    · exact h1
    · dsimp only
      by_cases hy : y ≠ 0
      · rw [if_pos hy, if_pos hy]
        exact forall₂_doubled_filter (fun b => decide (b.bill_year = y))
          (fun a b hab => by simp [hab.2.2.1]) h1
      · rw [if_neg hy, if_neg hy]
        exact h1
  unfold footprintTotal
  rw [footprintTotal_finite _ (doubled_finite_left hfil) 0,
    footprintTotal_finite _ (doubled_finite_right hfil) 0,
    doubled_finiteFootprintSum hfil]
  simp [PyFloat.mul]

/-- A stored electricity bill of hotel 1 with amount `"0.0006"` kWh. -/
def billA : UtilityBill :=
  { id := 1, hotel_id := 1, hotel_name := "H", bill_type := "electricity"
    bill_month := 1, bill_year := 2024, bill_amount := "0.0006", unit := "kWh"
    file_url := "u", uploaded_at := 0 }

/-- The same bill with its amount doubled to `"0.0012"`. -/
def billA2 : UtilityBill := { billA with bill_amount := "0.0012" }

/-- A store holding only `billA`. -/
def dbA : DBState := { emptyDB with utility_bills := [billA] }

/-- A store holding only `billA2`. -/
def dbA2 : DBState := { emptyDB with utility_bills := [billA2] }

/-- The amount string of `billA` parses to `0.0006`. -/
theorem billA_parse : pyFloatOfString "0.0006" = some (.finite (3 / 5000)) := by
  rw [pyFloatOfString,
    show floatTokOfString "0.0006" = some (.num true ⟨0, 6, 4, 0⟩) from by decide]
  norm_num [FloatTok.val, DecLit.val]

/-- The amount string of `billA2` parses to `0.0012 = 2 × 0.0006`. -/
theorem billA2_parse : pyFloatOfString "0.0012" = some (.finite (2 * (3 / 5000))) := by
  rw [pyFloatOfString,
    show floatTokOfString "0.0012" = some (.num true ⟨0, 12, 4, 0⟩) from by decide]
  norm_num [FloatTok.val, DecLit.val]

/-- Claim C6, as frozen, is false for the reported `total_co2_kg`, which
is rounded to 3 decimal places: a single electricity bill of 0.0006 kWh
reports a total of 0.0 kg (0.0003 rounds down), while its doubled version
reports 0.001 kg — not twice 0.0. -/
theorem C6_counterexample :
    footprintReportedTotal dbA 1 none = .finite 0 ∧
    footprintReportedTotal dbA2 1 none = .finite (1 / 1000) ∧
    footprintReportedTotal dbA2 1 none ≠
      (PyFloat.finite 2).mul (footprintReportedTotal dbA 1 none) := by
  have hs : strLower "electricity" = "electricity" := by decide
  have h1 : footprintReportedTotal dbA 1 none = .finite 0 := by
    rw [footprintReportedTotal, show footprintBills dbA 1 none = [billA] from by decide]
    simp [billA, footprintTotal, footprintStep, billA_parse, hs,
      PyFloat.add, PyFloat.mul, pyRound3, footprint_emission_factor, round3, round_eq]
    norm_num
  have h2 : footprintReportedTotal dbA2 1 none = .finite (1 / 1000) := by
    rw [footprintReportedTotal, show footprintBills dbA2 1 none = [billA2] from by decide]
    simp [billA2, billA, footprintTotal, footprintStep, billA2_parse, hs,
      PyFloat.add, PyFloat.mul, pyRound3, footprint_emission_factor, round3, round_eq]
    norm_num
  refine ⟨h1, h2, ?_⟩
  rw [h1, h2]
  simp only [PyFloat.mul, PyFloat.finite.injEq, ne_eq]
  norm_num

/-- Witness for C6: the amended linearity theorem applied to the concrete
store pair `dbA`, `dbA2` (the doubling hypothesis discharged by the two
parse computations). -/
theorem C6_footprint_unrounded_linear_witness :
    footprintTotal (footprintBills dbA2 1 none) =
      (PyFloat.finite 2).mul (footprintTotal (footprintBills dbA 1 none)) := by
  refine C6_footprint_unrounded_linear dbA dbA2 1 none ?_
  refine List.Forall₂.cons ⟨rfl, rfl, rfl, 3 / 5000, ?_, ?_⟩ List.Forall₂.nil
  · exact billA_parse
  · exact billA2_parse
